import Mathlib

/-!
Verification of the tool-dispatch MCP server (`src/mcp_server.py`).

The server advertises a fixed catalog of three tools (`chat_completion`,
`generate_image`, `analyze_text`), dispatches `call_tool` requests to a
handler per tool name, and wraps every outcome in a `CallToolResult`
envelope.  We embed the argument bundles, the tool catalog, the three
handlers, the dispatcher and the startup credential check as pure
functions; the backend (the OpenAI client) is abstracted as a pair of
functions returning `Except String String`, where `Except.error e`
models a raised exception whose message is `e`.
-/

/-- A dynamically-typed value of an argument bundle (a JSON-decoded Python
value).  Only the shapes the server manipulates are included. -/
inductive Value where
  | str (s : String)
  | int (n : Int)
  | bool (b : Bool)
  | pyNone
deriving DecidableEq

/-- Python `str(v)`, as used when a value is spliced into an f-string. -/
def Value.toDisplay : Value → String
  | .str s => s
  | .int n => toString n
  | .bool b => if b then "True" else "False"
  | .pyNone => "None"

/-- An argument bundle: the `arguments` dict of a `call_tool` request,
keys unique as in a Python dict. -/
abbrev Arguments := List (String × Value)

/-- Python `arguments.get(key, d)`: the stored value when the key is
present, the default `d` otherwise. -/
def Arguments.getD (args : Arguments) (key : String) (d : Value) : Value :=
  match args.lookup key with
  | some v => v
  | none => d

/-- One field declaration inside the `inputSchema.properties`. -/
structure PropertySchema where
  type : String
  description : String
  default : Option Value
deriving DecidableEq

/-- The tool `inputSchema`: field declarations plus the `required` list. -/
structure InputSchema where
  type : String
  properties : List (String × PropertySchema)
  required : List String
deriving DecidableEq

/-- A `Tool` descriptor of the catalog. -/
structure Tool where
  name : String
  description : String
  inputSchema : InputSchema
deriving DecidableEq

/-- The `ListToolsResult` envelope. -/
structure ListToolsResult where
  tools : List Tool
deriving DecidableEq

/-- A `TextContent` block of a result envelope. -/
structure TextContent where
  type : String
  text : String
deriving DecidableEq

/-- The `CallToolResult` envelope: content blocks plus the error flag. -/
structure CallToolResult where
  content : List TextContent
  isError : Bool
deriving DecidableEq

/-- One entry of the `messages` list sent to the chat completion API. -/
structure ChatMessage where
  role : String
  content : Value
deriving DecidableEq

/-- The argument record of a `openai_client.chat.completions.create` call. -/
structure ChatRequest where
  model : Value
  messages : List ChatMessage
  max_tokens : Value
deriving DecidableEq

/-- The argument record of a `openai_client.images.generate` call. -/
structure ImageRequest where
  model : String
  prompt : Value
  size : Value
  quality : Value
  n : Nat
deriving DecidableEq

/-- The backend (the process-wide OpenAI client), abstracted: `chat req`
models `chat.completions.create(**req)` and yields either the extracted
`response.choices[0].message.content` or the message of a raised exception;
`image req` models `images.generate(**req)` and yields either
`response.data[0].url` or the message of a raised exception. -/
structure Backend where
  chat : ChatRequest → Except String String
  image : ImageRequest → Except String String

/-- `handle_list_tools` (source lines 40-112): the static tool catalog,
returned fresh on every list request. -/
def handle_list_tools (_u : Unit) : ListToolsResult :=
  ⟨[⟨"chat_completion",
     "Send a message to OpenAI\x27s chat completion API",
     ⟨"object",
      [("message", ⟨"string", "The message to send to OpenAI", none⟩),
       ("model", ⟨"string", "The OpenAI model to use (default: gpt-3.5-turbo)",
                  some (Value.str "gpt-3.5-turbo")⟩),
       ("max_tokens", ⟨"integer", "Maximum tokens to generate",
                       some (Value.int 1000)⟩)],
      ["message"]⟩⟩,
    ⟨"generate_image",
     "Generate an image using OpenAI\x27s DALL-E API",
     ⟨"object",
      [("prompt", ⟨"string", "The prompt for image generation", none⟩),
       ("size", ⟨"string", "Image size (1024x1024, 1792x1024, 1024x1792)",
                 some (Value.str "1024x1024")⟩),
       ("quality", ⟨"string", "Image quality (standard, hd)",
                    some (Value.str "standard")⟩)],
      ["prompt"]⟩⟩,
    ⟨"analyze_text",
     "Analyze text using OpenAI\x27s API",
     ⟨"object",
      [("text", ⟨"string", "The text to analyze", none⟩),
       ("analysis_type", ⟨"string", "Type of analysis (sentiment, summary, keywords)",
                          some (Value.str "summary")⟩)],
      ["text"]⟩⟩]⟩

/-- The default declared for `field` in the catalog entry of `toolName`
(`none` when the tool or the field is absent, or no default is declared). -/
def schemaDefault (toolName field : String) : Option Value :=
  match (handle_list_tools ()).tools.find? (fun t => t.name == toolName) with
  | some t =>
    match t.inputSchema.properties.lookup field with
    | some p => p.default
    | none => none
  | none => none

/-- The chat request built by `handle_chat_completion` (source lines
138-146): `message`, `model`, `max_tokens` extracted with their defaults. -/
def chatRequestOf (args : Arguments) : ChatRequest :=
  ⟨args.getD "model" (Value.str "gpt-3.5-turbo"),
   [⟨"user", args.getD "message" (Value.str "")⟩],
   args.getD "max_tokens" (Value.int 1000)⟩

/-- The image request built by `handle_generate_image` (source lines
172-182): fixed model `dall-e-3`, `n=1`, and `prompt`/`size`/`quality`
extracted with their defaults. -/
def imageRequestOf (args : Arguments) : ImageRequest :=
  ⟨"dall-e-3",
   args.getD "prompt" (Value.str ""),
   args.getD "size" (Value.str "1024x1024"),
   args.getD "quality" (Value.str "standard"),
   1⟩

/-- The prompt-template selection of `handle_analyze_text` (source lines
211-216): `sentiment` and `keywords` pick their templates, anything else
falls through to the summary template. -/
def promptFor (analysis_type text : Value) : String :=
  if analysis_type = Value.str "sentiment" then
    "Analyze the sentiment of this text: " ++ text.toDisplay
  else if analysis_type = Value.str "keywords" then
    "Extract key keywords from this text: " ++ text.toDisplay
  else
    "Provide a brief summary of this text: " ++ text.toDisplay

/-- The chat request built by `handle_analyze_text` (source lines
208-222): fixed model and `max_tokens=500`, prompt derived by template. -/
def analyzeRequestOf (args : Arguments) : ChatRequest :=
  ⟨Value.str "gpt-3.5-turbo",
   [⟨"user", Value.str (promptFor (args.getD "analysis_type" (Value.str "summary"))
                                  (args.getD "text" (Value.str "")))⟩],
   Value.int 500⟩

/-- The `try`/`except` wrapping shared by the three handlers: a backend
success becomes an envelope with `isError` left at its default `false`
and text `okText payload`; a raised exception becomes `isError=true`
with text `errPre ++ str(e)`. -/
def wrapOutcome (okText : String → String) (errPre : String) :
    Except String String → CallToolResult
  | .ok payload => ⟨[⟨"text", okText payload⟩], false⟩
  | .error e => ⟨[⟨"text", errPre ++ e⟩], true⟩

/-- `handle_chat_completion` (source lines 135-167). -/
def handle_chat_completion (b : Backend) (args : Arguments) : CallToolResult :=
  wrapOutcome (fun content => content) "Error in chat completion: "
    (b.chat (chatRequestOf args))

/-- `handle_generate_image` (source lines 169-203). -/
def handle_generate_image (b : Backend) (args : Arguments) : CallToolResult :=
  wrapOutcome (fun url => "Generated image: " ++ url) "Error generating image: "
    (b.image (imageRequestOf args))

/-- `handle_analyze_text` (source lines 205-243). -/
def handle_analyze_text (b : Backend) (args : Arguments) : CallToolResult :=
  wrapOutcome (fun content => content) "Error analyzing text: "
    (b.chat (analyzeRequestOf args))

/-- `handle_call_tool` (source lines 115-133): the routing
chain, with the unknown-tool envelope as the final `else`. -/
def handle_call_tool (b : Backend) (name : String) (args : Arguments) :
    CallToolResult :=
  if name = "chat_completion" then handle_chat_completion b args
  else if name = "generate_image" then handle_generate_image b args
  else if name = "analyze_text" then handle_analyze_text b args
  else ⟨[⟨"text", "Unknown tool: " ++ name⟩], true⟩

/-- How the stdio stream session ends, seen from `main`: the stream
closes cleanly, or the protocol run raises (transport-fatal). -/
inductive ServerRunResult where
  | cleanClose
  | crash (msg : String)
deriving DecidableEq

/-- The observable outcome of one run of `main`: what was printed,
whether the negotiation/dispatch phase was entered, and the process
exit code. -/
structure MainRun where
  output : List String
  negotiationStarted : Bool
  exitCode : Nat
deriving DecidableEq

/-- Python truthiness of `os.getenv("OPENAI_API_KEY")`: `None` (unset)
and the empty string are falsy. -/
def envTruthy : Option String → Bool
  | none => false
  | some s => !(s == "")

/-- The first line printed on the missing-credential path (source line 251). -/
def missingKeyDiagnostic : String :=
  "Error: OPENAI_API_KEY environment variable is not set"

/-- `main` (source lines 245-281), named `server_main` here since Lean reserves `main`: if the API key is falsy, print the
diagnostic and `sys.exit(1)` before any protocol activity; otherwise
print the banner and run the server, exiting 0 when the stream closes
cleanly and 1 (unhandled exception) when the run raises. -/
def server_main (apiKey : Option String) (run : ServerRunResult) : MainRun :=
  if envTruthy apiKey = false then
    ⟨[missingKeyDiagnostic,
      "Please set your OpenAI API key in the .env file or environment"],
     false, 1⟩
  else
    ⟨["Starting OpenAI MCP Server...",
      "Available tools:",
      "- chat_completion: Send messages to OpenAI\x27s chat completion API",
      "- generate_image: Generate images using DALL-E",
      "- analyze_text: Analyze text for sentiment, summary, or keywords"],
     true,
     match run with
     | .cleanClose => 0
     | .crash _ => 1⟩

/-- Claim C1: for every tool name, argument bundle and backend behaviour,
`handle_call_tool` returns exactly one result envelope consisting of one
text content block plus the error flag; the dispatcher is a total function
of its inputs, so no exception escapes its boundary. -/
theorem dispatch_total_envelope (b : Backend) (name : String) (args : Arguments) :
    ∃ t : String, ∃ e : Bool,
      handle_call_tool b name args = ⟨[⟨"text", t⟩], e⟩ := by
  unfold handle_call_tool handle_chat_completion handle_generate_image handle_analyze_text
  split_ifs
  · rcases b.chat (chatRequestOf args) with e | c <;> exact ⟨_, _, rfl⟩
  · rcases b.image (imageRequestOf args) with e | c <;> exact ⟨_, _, rfl⟩
  · rcases b.chat (analyzeRequestOf args) with e | c <;> exact ⟨_, _, rfl⟩
  · exact ⟨_, _, rfl⟩

/-- Claim C2: for every unregistered tool name and every argument bundle,
`handle_call_tool` yields the `isError=true` envelope whose single text
block is exactly `"Unknown tool: " ++ name`, and the result is identical
for every backend, so no backend call is made. -/
theorem unknown_tool_envelope (b : Backend) (name : String) (args : Arguments)
    (h₁ : name ≠ "chat_completion") (h₂ : name ≠ "generate_image")
    (h₃ : name ≠ "analyze_text") :
    handle_call_tool b name args = ⟨[⟨"text", "Unknown tool: " ++ name⟩], true⟩ ∧
    ∀ b₂ : Backend, handle_call_tool b₂ name args = handle_call_tool b name args := by
  constructor
  · simp [handle_call_tool, h₁, h₂, h₃]
  · intro b₂
    simp [handle_call_tool, h₁, h₂, h₃]

theorem unknown_tool_envelope_witness :
    handle_call_tool ⟨fun _ => Except.error "e", fun _ => Except.error "e"⟩
        "nonexistent_tool" [] =
      ⟨[⟨"text", "Unknown tool: nonexistent_tool"⟩], true⟩ :=
  (unknown_tool_envelope ⟨fun _ => Except.error "e", fun _ => Except.error "e"⟩
      "nonexistent_tool" [] (by decide) (by decide) (by decide)).1

/-- Claim C3: for every registered handler, when its backend call raises
with message `e` the handler returns an `isError=true` envelope whose text
extends `e` with a fixed diagnostic prefix; the exception goes no further
(each handler is a total function of the backend outcome). -/
theorem backend_failure_contained (b : Backend) (args : Arguments) (e : String) :
    (b.chat (chatRequestOf args) = Except.error e →
       (handle_chat_completion b args).isError = true ∧
       (handle_chat_completion b args).content =
         [⟨"text", "Error in chat completion: " ++ e⟩]) ∧
    (b.image (imageRequestOf args) = Except.error e →
       (handle_generate_image b args).isError = true ∧
       (handle_generate_image b args).content =
         [⟨"text", "Error generating image: " ++ e⟩]) ∧
    (b.chat (analyzeRequestOf args) = Except.error e →
       (handle_analyze_text b args).isError = true ∧
       (handle_analyze_text b args).content =
         [⟨"text", "Error analyzing text: " ++ e⟩]) := by
  refine ⟨fun h => ?_, fun h => ?_, fun h => ?_⟩ <;>
    simp [handle_chat_completion, handle_generate_image, handle_analyze_text,
          wrapOutcome, h]

theorem backend_failure_contained_witness :
    (handle_chat_completion
        ⟨fun _ => Except.error "boom", fun _ => Except.error "boom"⟩ []).isError = true ∧
    (handle_chat_completion
        ⟨fun _ => Except.error "boom", fun _ => Except.error "boom"⟩ []).content =
      [⟨"text", "Error in chat completion: " ++ "boom"⟩] :=
  (backend_failure_contained
      ⟨fun _ => Except.error "boom", fun _ => Except.error "boom"⟩ [] "boom").1 rfl

/-- Claim C4: for every chat_completion argument bundle, a missing
`model` key resolves `model` to `"gpt-3.5-turbo"` and, independently, a
missing `max_tokens` key resolves `max_tokens` to `1000`, each resolved
value coinciding with the default the catalog schema declares; the
backend call is always made with the resolved request, and
`{"message": "hi"}` alone resolves both defaults. -/
theorem chat_completion_defaults (args : Arguments) :
    (args.lookup "model" = none →
       (chatRequestOf args).model = Value.str "gpt-3.5-turbo" ∧
       schemaDefault "chat_completion" "model" = some (chatRequestOf args).model) ∧
    (args.lookup "max_tokens" = none →
       (chatRequestOf args).max_tokens = Value.int 1000 ∧
       schemaDefault "chat_completion" "max_tokens" = some (chatRequestOf args).max_tokens) ∧
    (∀ b : Backend, handle_chat_completion b args =
       wrapOutcome (fun content => content) "Error in chat completion: "
         (b.chat (chatRequestOf args))) ∧
    chatRequestOf [("message", Value.str "hi")] =
      ⟨Value.str "gpt-3.5-turbo", [⟨"user", Value.str "hi"⟩], Value.int 1000⟩ := by
  refine ⟨fun hm => ?_, fun ht => ?_, fun b => rfl, by decide⟩
  · have h1 : (chatRequestOf args).model = Value.str "gpt-3.5-turbo" := by
      simp [chatRequestOf, Arguments.getD, hm]
    exact ⟨h1, by rw [h1]; rfl⟩
  · have h2 : (chatRequestOf args).max_tokens = Value.int 1000 := by
      simp [chatRequestOf, Arguments.getD, ht]
    exact ⟨h2, by rw [h2]; rfl⟩

theorem chat_completion_defaults_witness :
    ((chatRequestOf [("message", Value.str "hi")]).model = Value.str "gpt-3.5-turbo" ∧
     schemaDefault "chat_completion" "model" =
       some (chatRequestOf [("message", Value.str "hi")]).model) ∧
    ((chatRequestOf [("message", Value.str "hi")]).max_tokens = Value.int 1000 ∧
     schemaDefault "chat_completion" "max_tokens" =
       some (chatRequestOf [("message", Value.str "hi")]).max_tokens) :=
  ⟨(chat_completion_defaults [("message", Value.str "hi")]).1 (by decide),
   (chat_completion_defaults [("message", Value.str "hi")]).2.1 (by decide)⟩

/-- Claim C5: `handle_analyze_text` performs one completion call whose
prompt is derived from the `analysis_type` field by exactly three fixed
templates: `"sentiment"` yields a prompt extending the literal phrase
`"Analyze the sentiment of this text:"`, `"keywords"` yields the
keyword-extraction template, and every other value (absence defaults the
field to `"summary"`) yields the summary template. -/
theorem analyze_text_prompt_templates (b : Backend) (args : Arguments) :
    handle_analyze_text b args =
      wrapOutcome (fun content => content) "Error analyzing text: "
        (b.chat (analyzeRequestOf args)) ∧
    (analyzeRequestOf args).messages =
      [⟨"user", Value.str (promptFor (args.getD "analysis_type" (Value.str "summary"))
                                     (args.getD "text" (Value.str "")))⟩] ∧
    (∀ t : Value, ∃ rest : String,
       promptFor (Value.str "sentiment") t =
         "Analyze the sentiment of this text:" ++ rest) ∧
    (∀ t : Value, promptFor (Value.str "keywords") t =
       "Extract key keywords from this text: " ++ t.toDisplay) ∧
    (∀ a t : Value, a ≠ Value.str "sentiment" → a ≠ Value.str "keywords" →
       promptFor a t = "Provide a brief summary of this text: " ++ t.toDisplay) := by
  refine ⟨rfl, rfl, fun t => ⟨" " ++ t.toDisplay, ?_⟩, fun t => by simp [promptFor],
          fun a t ha hk => by simp [promptFor, ha, hk]⟩
  have hp : promptFor (Value.str "sentiment") t =
      "Analyze the sentiment of this text: " ++ t.toDisplay := by simp [promptFor]
  rw [hp]
  exact String.append_assoc "Analyze the sentiment of this text:" " " t.toDisplay

theorem analyze_text_prompt_templates_witness :
    promptFor (Value.str "bogus") (Value.str "T") =
      "Provide a brief summary of this text: " ++ (Value.str "T").toDisplay :=
  (analyze_text_prompt_templates
      ⟨fun _ => Except.error "e", fun _ => Except.error "e"⟩ []).2.2.2.2
    (Value.str "bogus") (Value.str "T") (by decide) (by decide)

/-- Claim C6: a schema-required field that is absent from the argument
bundle (`message` for chat_completion, `prompt` for generate_image,
`text` for analyze_text) does not make the handler reject: the handler
substitutes the empty string and the backend call is still made with the
resulting request (the handler equals the wrap of that backend call). -/
theorem missing_required_field_empty_string (args : Arguments) :
    (args.lookup "message" = none →
       (chatRequestOf args).messages = [⟨"user", Value.str ""⟩]) ∧
    (args.lookup "prompt" = none → (imageRequestOf args).prompt = Value.str "") ∧
    (args.lookup "text" = none →
       (analyzeRequestOf args).messages =
         [⟨"user", Value.str (promptFor (args.getD "analysis_type" (Value.str "summary"))
                                        (Value.str ""))⟩]) ∧
    (∀ b : Backend,
       handle_chat_completion b args =
         wrapOutcome (fun content => content) "Error in chat completion: "
           (b.chat (chatRequestOf args)) ∧
       handle_generate_image b args =
         wrapOutcome (fun url => "Generated image: " ++ url) "Error generating image: "
           (b.image (imageRequestOf args)) ∧
       handle_analyze_text b args =
         wrapOutcome (fun content => content) "Error analyzing text: "
           (b.chat (analyzeRequestOf args))) := by
  refine ⟨fun h => ?_, fun h => ?_, fun h => ?_, fun b => ⟨rfl, rfl, rfl⟩⟩ <;>
    simp [chatRequestOf, imageRequestOf, analyzeRequestOf, Arguments.getD, h]

theorem missing_required_field_empty_string_witness :
    (chatRequestOf []).messages = [⟨"user", Value.str ""⟩] ∧
    (imageRequestOf []).prompt = Value.str "" :=
  ⟨(missing_required_field_empty_string []).1 rfl,
   (missing_required_field_empty_string []).2.1 rfl⟩

/-- Claim C7: `handle_list_tools` is a pure function of no state, so
every call returns the same catalog; the catalog lists the three tool
names with their field sets, required-field lists and declared default
values. -/
theorem list_tools_idempotent :
    (∀ u v : Unit, handle_list_tools u = handle_list_tools v) ∧
    (handle_list_tools ()).tools.map Tool.name =
      ["chat_completion", "generate_image", "analyze_text"] ∧
    (handle_list_tools ()).tools.map (fun t => t.inputSchema.properties.map Prod.fst) =
      [["message", "model", "max_tokens"],
       ["prompt", "size", "quality"],
       ["text", "analysis_type"]] ∧
    (handle_list_tools ()).tools.map (fun t => t.inputSchema.required) =
      [["message"], ["prompt"], ["text"]] ∧
    (handle_list_tools ()).tools.map
        (fun t => t.inputSchema.properties.map (fun p => (p.1, p.2.default))) =
      [[("message", none), ("model", some (Value.str "gpt-3.5-turbo")),
        ("max_tokens", some (Value.int 1000))],
       [("prompt", none), ("size", some (Value.str "1024x1024")),
        ("quality", some (Value.str "standard"))],
       [("text", none), ("analysis_type", some (Value.str "summary"))]] :=
  ⟨fun _ _ => rfl, rfl, rfl, rfl, rfl⟩

/-- Claim C8: a falsy `OPENAI_API_KEY` (in particular an absent one)
makes `main` print the distinct missing-key diagnostic and exit with
code 1 before negotiation starts; that diagnostic never appears on the
normal path, and exit code 0 occurs only when the key is truthy and the
stream closes cleanly after negotiation was entered. -/
theorem missing_api_key_exit :
    (∀ run : ServerRunResult,
       (server_main none run).exitCode = 1 ∧
       (server_main none run).negotiationStarted = false ∧
       missingKeyDiagnostic ∈ (server_main none run).output) ∧
    (∀ (key : Option String) (run : ServerRunResult), envTruthy key = true →
       missingKeyDiagnostic ∉ (server_main key run).output) ∧
    (∀ (key : Option String) (run : ServerRunResult),
       (server_main key run).exitCode = 0 →
       envTruthy key = true ∧ run = ServerRunResult.cleanClose ∧
       (server_main key run).negotiationStarted = true) := by
  refine ⟨fun run => ⟨rfl, rfl, ?_⟩, fun key run h => ?_, fun key run h => ?_⟩
  · simp [server_main, envTruthy]
  · simp only [server_main, h, Bool.true_eq_false, if_false]
    simp [missingKeyDiagnostic]
  · by_cases hk : envTruthy key = false
    · simp [server_main, hk] at h
    · have hk2 : envTruthy key = true := by
        cases hkv : envTruthy key
        · exact absurd hkv hk
        · rfl
      cases run with
      | cleanClose => exact ⟨hk2, rfl, by simp [server_main, hk2]⟩
      | crash m => simp [server_main, hk2] at h

theorem missing_api_key_exit_witness :
    envTruthy (some "sk-test") = true ∧
    ServerRunResult.cleanClose = ServerRunResult.cleanClose ∧
    (server_main (some "sk-test") ServerRunResult.cleanClose).negotiationStarted = true :=
  missing_api_key_exit.2.2 (some "sk-test") ServerRunResult.cleanClose rfl

/-- Claim C9: `handle_analyze_text` always calls the chat backend with
the fixed model `"gpt-3.5-turbo"` and fixed `max_tokens` 500, for every
argument bundle (so no `model` or `max_tokens` key can change them). -/
theorem analyze_text_fixed_model_tokens (args : Arguments) :
    (analyzeRequestOf args).model = Value.str "gpt-3.5-turbo" ∧
    (analyzeRequestOf args).max_tokens = Value.int 500 ∧
    (∀ b : Backend, handle_analyze_text b args =
       wrapOutcome (fun content => content) "Error analyzing text: "
         (b.chat (analyzeRequestOf args))) :=
  ⟨rfl, rfl, fun _ => rfl⟩

/-- Claim C10: `handle_generate_image` always calls the image backend
with the fixed model `"dall-e-3"` and `n=1`; the built request depends
only on the `prompt`, `size` and `quality` keys of the argument bundle;
and on backend success the envelope text is `"Generated image: "`
followed by the returned URL. -/
theorem generate_image_fixed_request (args : Arguments) :
    (imageRequestOf args).model = "dall-e-3" ∧
    (imageRequestOf args).n = 1 ∧
    (∀ args₂ : Arguments,
       args.lookup "prompt" = args₂.lookup "prompt" →
       args.lookup "size" = args₂.lookup "size" →
       args.lookup "quality" = args₂.lookup "quality" →
       imageRequestOf args = imageRequestOf args₂) ∧
    (∀ (b : Backend) (url : String),
       b.image (imageRequestOf args) = Except.ok url →
       handle_generate_image b args =
         ⟨[⟨"text", "Generated image: " ++ url⟩], false⟩) := by
  refine ⟨rfl, rfl, fun args₂ hp hs hq => ?_, fun b url h => ?_⟩
  · simp [imageRequestOf, Arguments.getD, hp, hs, hq]
  · simp [handle_generate_image, wrapOutcome, h]

theorem generate_image_fixed_request_witness :
    imageRequestOf [] = imageRequestOf [("other", Value.int 3)] ∧
    handle_generate_image ⟨fun _ => Except.error "e", fun _ => Except.ok "http://u"⟩ [] =
      ⟨[⟨"text", "Generated image: " ++ "http://u"⟩], false⟩ :=
  ⟨(generate_image_fixed_request []).2.2.1 [("other", Value.int 3)] rfl rfl rfl,
   (generate_image_fixed_request []).2.2.2
     ⟨fun _ => Except.error "e", fun _ => Except.ok "http://u"⟩ "http://u" rfl⟩
